import Mathlib

/-!
Verification of the django-elasticsearch synchronization and fallback
orchestration engine, as a shallow embedding of the three source files
`django_elasticsearch/models.py`, `django_elasticsearch/utils.py` and
`django_elasticsearch/contrib/restframework/restframework2.py`.

External collaborators (Django ORM, Django REST framework 2, the
elasticsearch-py client) are modelled at their interfaces: the inner
request-handling cycle is an abstract function, store mutations are
counters, and the elasticsearch-py exception hierarchy is reproduced
(in that library `ConnectionError`, `NotFoundError` (404) and
`RequestError` (400, malformed query) are all subclasses of
`TransportError`).
-/

/- ===== models.py : EsIndexable save/delete guard (lines 41-53) ===== -/

/-- A live instance of an `EsIndexable` model.  The single observable
attribute relevant to the save/delete guard is
`getattr(self, "_is_es_deserialized", False)`: `true` when the instance
was materialized from an Elasticsearch response, `false` when the
attribute is absent or falsy. -/
structure EsModelInstance where
  is_es_deserialized : Bool
deriving DecidableEq

/-- Authoritative relational store, observed through its mutation count. -/
structure DbState where
  mutation_count : Nat
deriving DecidableEq

/-- `EsIndexable._raise_no_db_operation` (models.py lines 41-45):
raises `ValueError` when the instance was deserialized from an
elasticsearch source. -/
def _raise_no_db_operation (inst : EsModelInstance) : Except String Unit :=
  if inst.is_es_deserialized then
    .error "The instance have been deserialized from an elasticsearch source and thus it is not safe to save it."
  else
    .ok ()

/-- `django.db.models.Model.save` (external collaborator): one
authoritative-store mutation. -/
def django_model_save (db : DbState) : DbState :=
  { mutation_count := db.mutation_count + 1 }

/-- `django.db.models.Model.delete` (external collaborator): one
authoritative-store mutation. -/
def django_model_delete (db : DbState) : DbState :=
  { mutation_count := db.mutation_count + 1 }

/-- `EsIndexable.save` (models.py lines 47-49): run the guard first,
then `super().save()`.  The returned pair is (outcome, resulting store
state); when the guard raises, the store is untouched. -/
def EsIndexable_save (inst : EsModelInstance) (db : DbState) :
    Except String Unit × DbState :=
  match _raise_no_db_operation inst with
  | .error m => (.error m, db)
  | .ok _ => (.ok (), django_model_save db)

/-- `EsIndexable.delete` (models.py lines 51-53): run the guard first,
then `super().delete()`. -/
def EsIndexable_delete (inst : EsModelInstance) (db : DbState) :
    Except String Unit × DbState :=
  match _raise_no_db_operation inst with
  | .error m => (.error m, db)
  | .ok _ => (.ok (), django_model_delete db)

/- ===== models.py : lifecycle signal callbacks (lines 65-88) ===== -/

/-- A Django model class as seen by a signal callback; the capability
check `issubclass(sender, EsIndexable)` is its one relevant attribute. -/
structure SenderModel where
  es_indexable : Bool
deriving DecidableEq

/-- Observable index-side effects: counts of `instance.es.do_index()`,
`instance.es.delete()` and `model.es.create_index()` calls. -/
structure IndexOps where
  index_ops : Nat
  delete_ops : Nat
  create_index_ops : Nat
deriving DecidableEq

/-- `es_save_callback` (models.py lines 65-69): on post_save, index the
document unless the sender is not an `EsIndexable` subclass. -/
def es_save_callback (sender : SenderModel) (ops : IndexOps) : IndexOps :=
  if sender.es_indexable then
    { ops with index_ops := ops.index_ops + 1 }
  else
    ops

/-- `es_delete_callback` (models.py lines 72-75): on post_delete, delete
the document unless the sender is not an `EsIndexable` subclass. -/
def es_delete_callback (sender : SenderModel) (ops : IndexOps) : IndexOps :=
  if sender.es_indexable then
    { ops with delete_ops := ops.delete_ops + 1 }
  else
    ops

/-- models.py lines 81-84: the list of candidate models is
`sender.get_models()` on Django > x.6 and the `created_models` argument
otherwise. -/
def es_syncdb_models (version_gt6 : Bool) (sender_models created_models : List SenderModel) :
    List SenderModel :=
  if version_gt6 then sender_models else created_models

/-- The loop body of `es_syncdb_callback` (models.py lines 86-88): call
`model.es.create_index()` when the model is an `EsIndexable` subclass,
skip it otherwise. -/
def syncdb_step (o : IndexOps) (m : SenderModel) : IndexOps :=
  if m.es_indexable then { o with create_index_ops := o.create_index_ops + 1 } else o

/-- `es_syncdb_callback` (models.py lines 78-88): on post_migrate, call
`create_index` for every candidate model that is an `EsIndexable`
subclass. -/
def es_syncdb_callback (version_gt6 : Bool) (sender_models created_models : List SenderModel)
    (ops : IndexOps) : IndexOps :=
  (es_syncdb_models version_gt6 sender_models created_models).foldl syncdb_step ops

/- ===== restframework2.py : ElasticsearchFilterBackend (lines 56-89) ===== -/

/-- A REST-framework view/handler as seen by the filter backend:
`view.action`, `getattr(view, "search_param", ...)`,
`getattr(view, "filter_fields", [])`, and the handler-declared default
ordering as returned by `OrderingFilter.get_default_ordering(view)`
(external collaborator reading `view.ordering`). -/
structure EsView where
  action : String
  search_param : Option String
  filter_fields : List String
  view_ordering : Option (List String)
deriving DecidableEq

/-- An inbound request as seen by the filter backend: the GET/query
parameters (`request.GET` and `request.QUERY_PARAMS` are the same
mapping in DRF 2), and the explicit request ordering as returned by
`OrderingFilter.get_ordering(request)` (external collaborator reading
the ordering query parameter). -/
structure EsRequest where
  params : List (String × String)
  req_ordering : Option (List String)
deriving DecidableEq

/-- Result of `ElasticsearchFilterBackend.filter_queryset`: either the
Elasticsearch query built for the list action (free-text query, field
filters, optional explicit ordering), or the untouched result of the
default `super().filter_queryset` chain for other actions. -/
inductive FilteredQS where
  | esQuery (query : String) (filters : List (String × String))
      (ordering : Option (List String)) : FilteredQS
  | superChain (tag : Nat) : FilteredQS
deriving DecidableEq

/-- `api_settings.SEARCH_PARAM` default value in DRF 2. -/
def API_SEARCH_PARAM : String := "search"

/-- Python truthiness of an optional list (`if not ordering`): `None`
and the empty list are falsy. -/
def truthyList : Option (List String) → Bool
  | none => false
  | some [] => false
  | some (_ :: _) => true

/-- restframework2.py lines 69-72: `ordering = self.get_ordering(request)`
then `if not ordering: ordering = self.get_default_ordering(view)`;
lines 82-83 apply `order_by` only when the result is truthy, so the
emitted ordering is `none` otherwise. -/
def resolve_request_ordering (req_ordering view_ordering : Option (List String)) :
    Option (List String) :=
  let ordering := if truthyList req_ordering then req_ordering else view_ordering
  if truthyList ordering then ordering else none

/-- Modelled from the spec: the entity-declared default ordering
(model-level declared default) is applied by the index query layer when
the view emitted no explicit order_by; that query layer is not under
src/.  Spec 4.3: "if absent, fall back to entity-declared default
ordering; if none resolve, ordering is omitted (backend default order
applies)". -/
def apply_entity_default_ordering (emitted entity_ordering : Option (List String)) :
    Option (List String) :=
  match emitted with
  | some o => some o
  | none => entity_ordering

/-- Full ordering resolution for a list request: the view-layer
precedence (request explicit, then handler default) from
`filter_queryset`, then the spec-modelled entity default. -/
def resolved_ordering (req_ordering view_ordering entity_ordering : Option (List String)) :
    Option (List String) :=
  apply_entity_default_ordering (resolve_request_ordering req_ordering view_ordering)
    entity_ordering

/-- `ElasticsearchFilterBackend.filter_queryset` (restframework2.py
lines 57-89).  `model_indexable` is `issubclass(queryset.model,
EsIndexable)`; `super_filtered` is the untouched result of the
`OrderingFilter`/`DjangoFilterBackend` chain (external collaborator)
used in the non-list branch.  Raising `ValueError` is the `.error`
case. -/
def filter_queryset (request : EsRequest) (model_indexable : Bool) (view : EsView)
    (super_filtered : FilteredQS) : Except String FilteredQS :=
  if view.action = "list" then
    if model_indexable = false then
      .error "Model is not indexed in Elasticsearch. Make it indexable by subclassing django_elasticsearch.models.EsIndexable."
    else
      let sp := view.search_param.getD API_SEARCH_PARAM
      let query := ((request.params.find? (fun p => p.1 = sp)).map (fun p => p.2)).getD ""
      let ordering := resolve_request_ordering request.req_ordering view.view_ordering
      let filters := request.params.filter (fun p => view.filter_fields.contains p.1)
      .ok (.esQuery query filters ordering)
  else
    .ok super_filtered

/- ===== restframework2.py : IndexableModelMixin state (lines 92-134) ===== -/

/-- The handler state relevant to fallback: `self.es_failed`. -/
structure MixinState where
  es_failed : Bool
deriving DecidableEq

/-- `IndexableModelMixin.__init__` (restframework2.py lines 100-102):
`self.es_failed = False` at handler construction. -/
def mixin_init : MixinState := ⟨false⟩

/-- Which of the two stores an operation reads from: the search index
or the authoritative relational store. -/
inductive DataSource where
  | es
  | db
deriving DecidableEq

/-- `IndexableModelMixin.get_queryset` (lines 122-126): the search index
for list/retrieve while no failure was observed, the database
otherwise. -/
def mixin_get_queryset (action : String) (s : MixinState) : DataSource :=
  if (action = "list" ∨ action = "retrieve") ∧ s.es_failed = false then .es else .db

/-- `IndexableModelMixin.filter_queryset` (lines 128-134): after a
failure the default (database) filter backends are used; otherwise the
Elasticsearch filter backend chain. -/
def mixin_filter_queryset (s : MixinState) : DataSource :=
  if s.es_failed then .db else .es

/-- `IndexableModelMixin.get_serializer_class` (lines 110-114):
`FakeSerializer` (raw index response) for list/retrieve while no
failure was observed, the database-backed serializer otherwise. -/
def mixin_get_serializer_class (action : String) (s : MixinState) : DataSource :=
  if (action = "list" ∨ action = "retrieve") ∧ s.es_failed = false then .es else .db

/-- `IndexableModelMixin.get_pagination_serializer` (lines 116-120):
`ElasticsearchPaginationSerializer` while no failure was observed, the
database-backed pagination serializer otherwise. -/
def mixin_get_pagination_serializer (s : MixinState) : DataSource :=
  if s.es_failed = false then .es else .db

/-- Events that may touch `es_failed` during one handler invocation:
the `except` branch in `dispatch` (line 153) is the only write site and
sets it to `True`; every other operation leaves it unchanged. -/
inductive MixinEvent where
  | backendFailure
  | readOp
deriving DecidableEq

/-- One event step on the handler state. -/
def mixin_step (s : MixinState) : MixinEvent → MixinState
  | .backendFailure => ⟨true⟩
  | .readOp => s

/-- A sequence of events within one handler invocation. -/
def mixin_run (s : MixinState) (evs : List MixinEvent) : MixinState :=
  evs.foldl mixin_step s

/- ===== restframework2.py : dispatch and fallback (lines 104-163) ===== -/

/-- Exceptions observable around `dispatch`, following the
elasticsearch-py hierarchy: `ConnectionError`, `NotFoundError` (HTTP
404) and `RequestError` (HTTP 400, malformed/rejected query) are all
subclasses of `TransportError`; `Http404` is Django's not-found
signal. -/
inductive PyExc where
  | connectionError (msg : String)
  | transportError (msg : String)
  | notFoundError (msg : String)
  | requestError (msg : String)
  | http404
  | otherError (msg : String)
deriving DecidableEq

/-- `isinstance(e, (ConnectionError, TransportError))`, the catch on
restframework2.py line 150, under the elasticsearch-py class hierarchy
(NotFoundError and RequestError subclass TransportError). -/
def isConnectionOrTransportError : PyExc → Bool
  | .connectionError _ => true
  | .transportError _ => true
  | .notFoundError _ => true
  | .requestError _ => true
  | .http404 => false
  | .otherError _ => false

/-- `str(e)` for the exceptions above. -/
def strOfExc : PyExc → String
  | .connectionError m => m
  | .transportError m => m
  | .notFoundError m => m
  | .requestError m => m
  | .http404 => "Http404"
  | .otherError m => m

/-- A value stored in a response payload dictionary. -/
inductive RVal where
  | str (s : String)
  | items (l : List String)
deriving DecidableEq

/-- `response.data`: either a dictionary payload or a non-dictionary
payload (for example a bare list of serialized records, which DRF 2
produces for an unpaginated list). -/
inductive RData where
  | dict (entries : List (String × RVal))
  | other (l : List String)
deriving DecidableEq

/-- Python dict assignment on an association list: replace in place
when the key exists, append otherwise. -/
def dictSet : List (String × RVal) → String → RVal → List (String × RVal)
  | [], k, v => [(k, v)]
  | (k0, v0) :: rest, k, v =>
      if k0 = k then (k, v) :: rest else (k0, v0) :: dictSet rest k v

/-- Python dict lookup on an association list. -/
def dictLookup : List (String × RVal) → String → Option RVal
  | [], _ => none
  | (k0, v0) :: rest, k => if k0 = k then some v0 else dictLookup rest k

/-- `isinstance(r.data, dict)`. -/
def RData.isDict : RData → Bool
  | .dict _ => true
  | .other _ => false

/-- `r.data[k] = v`, only meaningful on dictionary payloads (every
assignment in the source is guarded by `isinstance(r.data, dict)`). -/
def RData.set : RData → String → RVal → RData
  | .dict l, k, v => .dict (dictSet l k v)
  | .other l, _, _ => .other l

/-- `r.data.get(k)` on a dictionary payload. -/
def RData.lookup : RData → String → Option RVal
  | .dict l, k => dictLookup l k
  | .other _, _ => none

/-- `k in r.data` on a dictionary payload. -/
def RData.hasKey (d : RData) (k : String) : Bool :=
  (d.lookup k).isSome

/-- `IndexableMixin.FILTER_STATUS_MESSAGE_OK` (line 97). -/
def FILTER_STATUS_MESSAGE_OK : String := "Ok"

/-- `IndexableMixin.FILTER_STATUS_MESSAGE_FAILED` (line 98). -/
def FILTER_STATUS_MESSAGE_FAILED : String := "Failed"

/-- restframework2.py lines 161-162: after the try/except, set
`r.data["filter_status"]` when the payload is a dict and the action is
list or retrieve. -/
def addFilterStatus (action : String) (es_failed : Bool) (d : RData) : RData :=
  if d.isDict ∧ (action = "list" ∨ action = "retrieve") then
    d.set "filter_status"
      (.str (if es_failed then FILTER_STATUS_MESSAGE_FAILED else FILTER_STATUS_MESSAGE_OK))
  else
    d

/-- The response payload produced on the fallback path (lines 155-162):
the second dispatch's payload, with `filter_fail_cause` attached when
`settings.DEBUG` holds and the payload is a dict, then the
`filter_status` marker. -/
def fallback_response (debug : Bool) (action : String) (e : PyExc) (d : RData) : RData :=
  addFilterStatus action true
    (if debug ∧ d.isDict = true then d.set "filter_fail_cause" (.str (strOfExc e)) else d)

/-- `IndexableModelMixin.dispatch` (restframework2.py lines 147-163).
`inner` is `super().dispatch` (the DRF request-handling cycle, external
collaborator), as a function of the handler's `es_failed` flag, which
every data-access operation of the cycle consults; the instance is
fresh per request so the first run sees `es_failed = False`.  The
returned Bool is the final `es_failed` state. -/
def dispatch (debug : Bool) (action : String) (inner : Bool → Except PyExc RData) :
    Except PyExc (RData × Bool) :=
  match inner false with
  | .ok d => .ok (addFilterStatus action false d, false)
  | .error e =>
      if isConnectionOrTransportError e then
        match inner true with
        | .ok d => .ok (fallback_response debug action e d, true)
        | .error e2 => .error e2
      else
        .error e

/-- `IndexableModelMixin.get_object` (lines 104-108): a `NotFoundError`
from the index fetch is translated to `Http404`; everything else passes
through.  The fetched object is abstracted to the response payload it
serializes to. -/
def mixin_get_object (fetched : Except PyExc RData) : Except PyExc RData :=
  match fetched with
  | .error (.notFoundError _) => .error .http404
  | x => x

/-- DRF 2 `APIView.dispatch` exception handling (external
collaborator): `Http404` raised by the handler becomes a 404 response
with a dict payload; unrecognized exceptions propagate out of
`super().dispatch`. -/
def drf_handle (h : Except PyExc RData) : Except PyExc RData :=
  match h with
  | .error .http404 => .ok (.dict [("detail", .str "Not found")])
  | x => x

/-- The retrieve cycle inside `super().dispatch`: fetch the object via
`get_object` (which translates index not-found to `Http404`), then let
DRF turn `Http404` into a 404 response. -/
def retrieve_inner (fetched : Except PyExc RData) : Except PyExc RData :=
  drf_handle (mixin_get_object fetched)

/- ===== utils.py : nested_update (lines 4-16) ===== -/

/-- A Python value as classified by `nested_update`: a `Mapping`
(dict), a non-mapping `Iterable` (list), or any other value (an
integer stands for the non-iterable case). -/
inductive PyVal where
  | vmap (entries : List (String × PyVal))
  | vlist (l : List PyVal)
  | vint (n : Int)

/-- Python dict lookup (`d.get(k)` / `d[k]`) on a PyVal dict body. -/
def pyGet (d : List (String × PyVal)) (k : String) : Option PyVal :=
  match d with
  | [] => none
  | (k0, v0) :: rest => if k0 = k then some v0 else pyGet rest k

/-- Python dict assignment `d[k] = v` on a PyVal dict body. -/
def pySet (d : List (String × PyVal)) (k : String) (v : PyVal) : List (String × PyVal) :=
  match d with
  | [] => [(k, v)]
  | (k0, v0) :: rest => if k0 = k then (k, v) :: rest else (k0, v0) :: pySet rest k v

mutual

/-- One iteration of the loop body of `nested_update` (utils.py lines
5-15) on target `d`, key `k` and update value `v`.  Python runtime
errors are the `.error` cases: `d.get` on a non-mapping raises
`AttributeError`; `d[k].extend` raises `AttributeError` when `d[k]` is
not a list; subscripting or item-assigning a non-mapping raises
`TypeError`; only `KeyError` is caught by the source (lines 10-13). -/
def nu_step (d : PyVal) (k : String) (v : PyVal) : Except String PyVal :=
  match v with
  | .vmap m =>
      match d with
      | .vmap dl =>
          match nu_list ((pyGet dl k).getD (.vmap [])) m with
          | .ok r => .ok (.vmap (pySet dl k r))
          | .error e => .error e
      | _ => .error "AttributeError"
  | .vlist l =>
      match d with
      | .vmap dl =>
          match pyGet dl k with
          | some (.vlist dk) => .ok (.vmap (pySet dl k (.vlist (dk ++ l))))
          | some _ => .error "AttributeError"
          | none => .ok (.vmap (pySet dl k (.vlist l)))
      | _ => .error "TypeError"
  | .vint n =>
      match d with
      | .vmap dl => .ok (.vmap (pySet dl k (.vint n)))
      | _ => .error "TypeError"

/-- The `for k, v in u.items()` loop of `nested_update`, threading the
mutated `d` through the iterations and returning it at the end. -/
def nu_list (d : PyVal) (u : List (String × PyVal)) : Except String PyVal :=
  match u with
  | [] => .ok d
  | (k, v) :: rest =>
      match nu_step d k v with
      | .ok d2 => nu_list d2 rest
      | .error e => .error e

end

/-- `nested_update(d, u)` (utils.py lines 4-16) on two dicts. -/
def nested_update (d u : List (String × PyVal)) : Except String PyVal :=
  nu_list (.vmap d) u

/- ===== Theorems ===== -/

/-- Claim C3: for every record instance flagged as having been
deserialized from the search index, both save and delete raise before
any authoritative-store mutation is attempted (the store state is
returned untouched); for every instance without that flag, save and
delete proceed to the underlying store operation, which performs
exactly one mutation. -/
theorem C3_unsafe_writeback_guard :
    (∀ inst db, inst.is_es_deserialized = true →
      (∃ m, EsIndexable_save inst db = (.error m, db)) ∧
      (∃ m, EsIndexable_delete inst db = (.error m, db))) ∧
    (∀ inst db, inst.is_es_deserialized = false →
      EsIndexable_save inst db = (.ok (), django_model_save db) ∧
      EsIndexable_delete inst db = (.ok (), django_model_delete db) ∧
      (django_model_save db).mutation_count = db.mutation_count + 1 ∧
      (django_model_delete db).mutation_count = db.mutation_count + 1) := by
  constructor
  · rintro ⟨b⟩ db h
    cases h
    exact ⟨⟨_, rfl⟩, ⟨_, rfl⟩⟩
  · rintro ⟨b⟩ db h
    cases h
    exact ⟨rfl, rfl, rfl, rfl⟩

/-- Witness for C3 at a flagged instance and an unflagged instance over
a store with zero prior mutations. -/
theorem C3_unsafe_writeback_guard_witness :
    (∃ m, EsIndexable_save ⟨true⟩ ⟨0⟩ = (.error m, ⟨0⟩)) ∧
    (∃ m, EsIndexable_delete ⟨true⟩ ⟨0⟩ = (.error m, ⟨0⟩)) ∧
    EsIndexable_save ⟨false⟩ ⟨0⟩ = (.ok (), django_model_save ⟨0⟩) ∧
    (django_model_save ⟨0⟩).mutation_count = 0 + 1 :=
  ⟨(C3_unsafe_writeback_guard.1 ⟨true⟩ ⟨0⟩ rfl).1,
   (C3_unsafe_writeback_guard.1 ⟨true⟩ ⟨0⟩ rfl).2,
   (C3_unsafe_writeback_guard.2 ⟨false⟩ ⟨0⟩ rfl).1,
   (C3_unsafe_writeback_guard.2 ⟨false⟩ ⟨0⟩ rfl).2.2.1⟩

/-- The post_migrate fold touches only the create_index count, and adds
exactly the number of `EsIndexable` models in the candidate list. -/
theorem syncdb_foldl_spec (models : List SenderModel) (ops : IndexOps) :
    (models.foldl syncdb_step ops).create_index_ops =
      ops.create_index_ops + models.countP (fun m => m.es_indexable) ∧
    (models.foldl syncdb_step ops).index_ops = ops.index_ops ∧
    (models.foldl syncdb_step ops).delete_ops = ops.delete_ops := by
  induction models generalizing ops with
  | nil => simp
  | cons m rest ih =>
      rcases ih (syncdb_step ops m) with ⟨h1, h2, h3⟩
      refine ⟨?_, ?_, ?_⟩
      all_goals simp only [List.foldl_cons, List.countP_cons, h1, h2, h3]
      all_goals by_cases h : m.es_indexable = true <;> simp [syncdb_step, h] <;> omega

/-- Claim C8: every lifecycle hook invokes an index operation only when
the affected model class is an `EsIndexable` subclass (capability
check); events for non-indexable classes perform no index operation and
return the effect state unchanged, and the migration hook creates one
index per indexable model in its candidate list. -/
theorem C8_lifecycle_capability_check :
    (∀ sender ops, sender.es_indexable = false →
      es_save_callback sender ops = ops ∧ es_delete_callback sender ops = ops) ∧
    (∀ sender ops, sender.es_indexable = true →
      es_save_callback sender ops = { ops with index_ops := ops.index_ops + 1 } ∧
      es_delete_callback sender ops = { ops with delete_ops := ops.delete_ops + 1 }) ∧
    (∀ v sm cm ops,
      (es_syncdb_callback v sm cm ops).create_index_ops =
        ops.create_index_ops + (es_syncdb_models v sm cm).countP (fun m => m.es_indexable) ∧
      (es_syncdb_callback v sm cm ops).index_ops = ops.index_ops ∧
      (es_syncdb_callback v sm cm ops).delete_ops = ops.delete_ops) := by
  refine ⟨?_, ?_, ?_⟩
  · rintro ⟨b⟩ ops h
    cases h
    exact ⟨rfl, rfl⟩
  · rintro ⟨b⟩ ops h
    cases h
    exact ⟨rfl, rfl⟩
  · intro v sm cm ops
    exact syncdb_foldl_spec (es_syncdb_models v sm cm) ops

/-- Witness for C8: a non-indexable sender leaves the effect state
untouched, an indexable one indexes once, and a migration over one
indexable and one non-indexable model creates one index. -/
theorem C8_lifecycle_capability_check_witness :
    es_save_callback ⟨false⟩ ⟨0, 0, 0⟩ = ⟨0, 0, 0⟩ ∧
    es_delete_callback ⟨false⟩ ⟨0, 0, 0⟩ = ⟨0, 0, 0⟩ ∧
    es_save_callback ⟨true⟩ ⟨0, 0, 0⟩ = ⟨1, 0, 0⟩ ∧
    (es_syncdb_callback true [⟨true⟩, ⟨false⟩] [] ⟨0, 0, 0⟩).create_index_ops = 1 :=
  ⟨(C8_lifecycle_capability_check.1 ⟨false⟩ ⟨0, 0, 0⟩ rfl).1,
   (C8_lifecycle_capability_check.1 ⟨false⟩ ⟨0, 0, 0⟩ rfl).2,
   ((C8_lifecycle_capability_check.2.1 ⟨true⟩ ⟨0, 0, 0⟩ rfl).1).trans (by decide),
   ((C8_lifecycle_capability_check.2.2 true [⟨true⟩, ⟨false⟩] [] ⟨0, 0, 0⟩).1).trans (by decide)⟩

/-- Claim C6: for every list request on an indexable model the filter
backend succeeds (extra parameters never raise), and the emitted
query's field filters are exactly the request parameters whose keys are
in the view's declared filterable-field allowlist. -/
theorem C6_filter_allowlist :
    (∀ request (view : EsView) s, view.action = "list" →
      ∃ q f o, filter_queryset request true view s = .ok (.esQuery q f o)) ∧
    (∀ request (view : EsView) s q f o, view.action = "list" →
      filter_queryset request true view s = .ok (.esQuery q f o) →
      f = request.params.filter (fun p => view.filter_fields.contains p.1) ∧
      ∀ kv, kv ∈ f ↔ kv ∈ request.params ∧ kv.1 ∈ view.filter_fields) := by
  constructor
  · intro request view s h
    refine ⟨((request.params.find? (fun p => p.1 = view.search_param.getD API_SEARCH_PARAM)).map
        (fun p => p.2)).getD "",
      request.params.filter (fun p => view.filter_fields.contains p.1),
      resolve_request_ordering request.req_ordering view.view_ordering, ?_⟩
    simp [filter_queryset, h]
  · intro request view s q f o h heq
    simp [filter_queryset, h] at heq
    obtain ⟨hq, hf, ho⟩ := heq
    subst hf
    exact ⟨by simp, fun kv => by simp [List.mem_filter]⟩

/-- Witness for C6 at the spec's example: filterable fields
`["status"]` and parameters `status=active, secret=1` keep only
`status=active`. -/
theorem C6_filter_allowlist_witness :
    (⟨[("status", "active"), ("secret", "1")], none⟩ : EsRequest).params.filter
        (fun p => (["status"] : List String).contains p.1) = [("status", "active")] ∧
    (("secret", "1") ∈ (⟨[("status", "active"), ("secret", "1")], none⟩ : EsRequest).params.filter
        (fun p => (["status"] : List String).contains p.1) ↔
      ("secret", "1") ∈ [("status", "active"), ("secret", "1")] ∧ "secret" ∈ ["status"]) := by
  have h := C6_filter_allowlist.2 ⟨[("status", "active"), ("secret", "1")], none⟩
    ⟨"list", none, ["status"], none⟩ (.superChain 0) "" [("status", "active")] none rfl rfl
  exact ⟨by decide, h.2 ("secret", "1")⟩

/-- Claim C7: ordering resolution precedence is request-explicit over
handler-declared default over entity-declared default, and with none of
them resolving no ordering is applied; the view layer emits exactly the
request/handler resolution. -/
theorem C7_ordering_precedence :
    (∀ req view entity, truthyList req = true →
      resolved_ordering req view entity = req) ∧
    (∀ req view entity, truthyList req = false → truthyList view = true →
      resolved_ordering req view entity = view) ∧
    (∀ req view entity, truthyList req = false → truthyList view = false →
      resolved_ordering req view entity = entity) ∧
    (∀ request (view : EsView) s q f o, view.action = "list" →
      filter_queryset request true view s = .ok (.esQuery q f o) →
      o = resolve_request_ordering request.req_ordering view.view_ordering) := by
  refine ⟨?_, ?_, ?_, ?_⟩
  · intro req view entity h
    cases req with
    | none => cases h
    | some l =>
        cases l with
        | nil => cases h
        | cons a t =>
            simp [resolved_ordering, resolve_request_ordering, truthyList,
              apply_entity_default_ordering]
  · intro req view entity h1 h2
    cases view with
    | none => cases h2
    | some l =>
        cases l with
        | nil => cases h2
        | cons a t =>
            simp [resolved_ordering, resolve_request_ordering, h1, h2,
              apply_entity_default_ordering]
  · intro req view entity h1 h2
    simp [resolved_ordering, resolve_request_ordering, h1, h2,
      apply_entity_default_ordering]
  · intro request view s q f o h heq
    simp [filter_queryset, h] at heq
    exact heq.2.2.symm

/-- Witness for C7 at the spec's example: request `["-created"]`,
handler default `["name"]`, entity default `["id"]`. -/
theorem C7_ordering_precedence_witness :
    resolved_ordering (some ["-created"]) (some ["name"]) (some ["id"]) = some ["-created"] ∧
    resolved_ordering none (some ["name"]) (some ["id"]) = some ["name"] ∧
    resolved_ordering none none (some ["id"]) = some ["id"] ∧
    resolved_ordering none none none = none :=
  ⟨C7_ordering_precedence.1 (some ["-created"]) (some ["name"]) (some ["id"]) rfl,
   C7_ordering_precedence.2.1 none (some ["name"]) (some ["id"]) rfl rfl,
   C7_ordering_precedence.2.2.1 none none (some ["id"]) rfl rfl,
   C7_ordering_precedence.2.2.1 none none none rfl rfl⟩

/-- Claim C10: for a list-action request on a model that is not an
`EsIndexable` subclass the filter backend raises `ValueError` instead
of building an index query; for any non-list action it returns the
default filter chain's result unchanged. -/
theorem C10_nonindexable_list_error :
    (∀ request (view : EsView) s, view.action = "list" →
      ∃ msg, filter_queryset request false view s = .error msg) ∧
    (∀ request mi (view : EsView) s, view.action ≠ "list" →
      filter_queryset request mi view s = .ok s) := by
  constructor
  · intro request view s h
    exact ⟨"Model is not indexed in Elasticsearch. Make it indexable by subclassing django_elasticsearch.models.EsIndexable.",
      by simp [filter_queryset, h]⟩
  · intro request mi view s h
    simp [filter_queryset, h]

/-- Witness for C10: a list view over a non-indexable model errors; a
non-list action passes the default chain result through. -/
theorem C10_nonindexable_list_error_witness :
    (∃ msg, filter_queryset ⟨[], none⟩ false ⟨"list", none, [], none⟩ (.superChain 0) =
      .error msg) ∧
    filter_queryset ⟨[], none⟩ true ⟨"create", none, [], none⟩ (.superChain 7) =
      .ok (.superChain 7) :=
  ⟨C10_nonindexable_list_error.1 ⟨[], none⟩ ⟨"list", none, [], none⟩ (.superChain 0) rfl,
   C10_nonindexable_list_error.2 ⟨[], none⟩ true ⟨"create", none, [], none⟩ (.superChain 7)
     (by decide)⟩

/-- Claim C2: the fallback flag is false at handler construction, no
event of an invocation ever resets it once set, and with the flag set
every data-access operation of the handler (queryset resolution,
filtering, serializer selection, pagination serialization) takes its
authoritative-store branch. -/
theorem C2_fallback_state_monotone :
    mixin_init.es_failed = false ∧
    (∀ s evs, s.es_failed = true → (mixin_run s evs).es_failed = true) ∧
    (∀ action s, s.es_failed = true →
      mixin_get_queryset action s = .db ∧
      mixin_filter_queryset s = .db ∧
      mixin_get_serializer_class action s = .db ∧
      mixin_get_pagination_serializer s = .db) := by
  refine ⟨rfl, ?_, ?_⟩
  · intro s evs h
    induction evs generalizing s with
    | nil => exact h
    | cons e rest ih =>
        cases e with
        | backendFailure => exact ih ⟨true⟩ rfl
        | readOp => exact ih s h
  · rintro action ⟨b⟩ h
    cases h
    exact ⟨by simp [mixin_get_queryset], rfl, by simp [mixin_get_serializer_class], rfl⟩

/-- Witness for C2: a failed state stays failed across further events
of the invocation, and a failed state routes the list operations to the
database. -/
theorem C2_fallback_state_monotone_witness :
    (mixin_run ⟨true⟩ [MixinEvent.readOp, MixinEvent.backendFailure, MixinEvent.readOp]).es_failed
        = true ∧
    mixin_get_queryset "list" ⟨true⟩ = .db ∧
    mixin_get_pagination_serializer ⟨true⟩ = .db :=
  ⟨C2_fallback_state_monotone.2.1 ⟨true⟩
      [MixinEvent.readOp, MixinEvent.backendFailure, MixinEvent.readOp] rfl,
   (C2_fallback_state_monotone.2.2 "list" ⟨true⟩ rfl).1,
   (C2_fallback_state_monotone.2.2 "list" ⟨true⟩ rfl).2.2.2⟩

/- ===== Dictionary payload lemmas ===== -/

/-- Setting a key makes it present with the written value. -/
theorem dictLookup_dictSet_self (l : List (String × RVal)) (k : String) (v : RVal) :
    dictLookup (dictSet l k v) k = some v := by
  induction l with
  | nil => simp [dictSet, dictLookup]
  | cons hd tl ih =>
      obtain ⟨k0, v0⟩ := hd
      by_cases h : k0 = k <;> simp [dictSet, dictLookup, h, ih]

/-- Setting a key leaves every other key unchanged. -/
theorem dictLookup_dictSet_ne (l : List (String × RVal)) (k k2 : String) (v : RVal)
    (h : k2 ≠ k) : dictLookup (dictSet l k v) k2 = dictLookup l k2 := by
  induction l with
  | nil => simp [dictSet, dictLookup, Ne.symm h]
  | cons hd tl ih =>
      obtain ⟨k0, v0⟩ := hd
      by_cases h0 : k0 = k
      · subst h0
        simp [dictSet, dictLookup, Ne.symm h]
      · simp [dictSet, dictLookup, h0, ih]

/-- Item assignment preserves the payload kind. -/
theorem RData.isDict_set (d : RData) (k : String) (v : RVal) :
    (d.set k v).isDict = d.isDict := by
  cases d <;> rfl

/-- Lookup after assignment on a dictionary payload, same key. -/
theorem RData.lookup_set_self (d : RData) (k : String) (v : RVal)
    (h : d.isDict = true) : (d.set k v).lookup k = some v := by
  cases d with
  | dict l => exact dictLookup_dictSet_self l k v
  | other l => cases h

/-- Lookup after assignment, distinct key. -/
theorem RData.lookup_set_ne (d : RData) (k k2 : String) (v : RVal)
    (h : k2 ≠ k) : (d.set k v).lookup k2 = d.lookup k2 := by
  cases d with
  | dict l => exact dictLookup_dictSet_ne l k k2 v h
  | other l => rfl

/-- Key presence after assignment, same key. -/
theorem RData.hasKey_set_self (d : RData) (k : String) (v : RVal)
    (h : d.isDict = true) : (d.set k v).hasKey k = true := by
  simp [RData.hasKey, RData.lookup_set_self d k v h]

/-- Key presence after assignment, distinct key. -/
theorem RData.hasKey_set_ne (d : RData) (k k2 : String) (v : RVal)
    (h : k2 ≠ k) : (d.set k v).hasKey k2 = d.hasKey k2 := by
  simp [RData.hasKey, RData.lookup_set_ne d k k2 v h]

/-- The filter_status step preserves the payload kind. -/
theorem isDict_addFilterStatus (action : String) (f : Bool) (d : RData) :
    (addFilterStatus action f d).isDict = d.isDict := by
  unfold addFilterStatus
  split
  · exact RData.isDict_set d _ _
  · rfl

/-- The fallback response builder preserves the payload kind. -/
theorem isDict_fallback_response (debug : Bool) (action : String) (e : PyExc) (d : RData) :
    (fallback_response debug action e d).isDict = d.isDict := by
  unfold fallback_response
  rw [isDict_addFilterStatus]
  split
  · exact RData.isDict_set d _ _
  · rfl

/-- The filter_status step leaves every other key untouched. -/
theorem hasKey_addFilterStatus_ne (action : String) (f : Bool) (d : RData) (k : String)
    (h : k ≠ "filter_status") : (addFilterStatus action f d).hasKey k = d.hasKey k := by
  unfold addFilterStatus
  split
  · exact RData.hasKey_set_ne d _ k _ h
  · rfl

/-- A list-request cycle whose search path raises the elasticsearch-py
`RequestError` (malformed/rejected query, HTTP 400) and whose database
fallback path succeeds. -/
def innerRequestError : Bool → Except PyExc RData := fun es_failed =>
  if es_failed then .ok (.dict [("count", .str "0"), ("results", .items [])])
  else .error (.requestError "SearchParseException bad query")

/-- A list-request cycle whose search path raises a connection failure
and whose database fallback path returns a non-dictionary payload (an
unpaginated DRF list response). -/
def innerNonDictFallback : Bool → Except PyExc RData := fun es_failed =>
  if es_failed then .ok (.other ["doc1", "doc2"])
  else .error (.connectionError "connection refused")

/-- A list-request cycle whose search path raises a connection failure
and whose database fallback path returns a dictionary payload. -/
def innerDictFallback : Bool → Except PyExc RData := fun es_failed =>
  if es_failed then .ok (.dict [("count", .str "2"), ("results", .items ["a", "b"])])
  else .error (.connectionError "connection refused")

/-- Claim C1 counterexample: a malformed/rejected-query error does not
surface to the caller as the claim states; elasticsearch-py
`RequestError` is a subclass of `TransportError`, so the broad catch on
restframework2.py line 150 recovers it through the database fallback
(the dispatch returns a fallback response with the failed flag set). -/
theorem C1_counterexample :
    dispatch false "list" innerRequestError =
      .ok (.dict [("count", .str "0"), ("results", .items []),
        ("filter_status", .str FILTER_STATUS_MESSAGE_FAILED)], true) ∧
    dispatch false "list" innerRequestError ≠
      .error (.requestError "SearchParseException bad query") := by
  refine ⟨rfl, ?_⟩
  intro h
  simp [dispatch, innerRequestError, isConnectionOrTransportError] at h

/-- Claim C1 (amended): fallback is triggered if and only if the inner
cycle raises an exception of the library classes ConnectionError or
TransportError (whose subclasses include not-found and malformed-query
errors); a document-not-found on a retrieve is translated by
`get_object` into a 404 response without setting the fallback flag; a
malformed/rejected-query error, being a TransportError, also triggers
fallback rather than surfacing. -/
theorem C1_fallback_condition :
    (∀ debug action inner r b,
      dispatch debug action inner = .ok (r, b) →
      (b = true ↔ ∃ e, inner false = .error e ∧ isConnectionOrTransportError e = true)) ∧
    (∀ debug m,
      dispatch debug "retrieve" (fun _ => retrieve_inner (.error (.notFoundError m))) =
        .ok (.dict [("detail", .str "Not found"),
          ("filter_status", .str FILTER_STATUS_MESSAGE_OK)], false)) ∧
    (∀ debug inner m r b, inner false = .error (.requestError m) →
      dispatch debug "list" inner = .ok (r, b) → b = true) := by
  refine ⟨?_, ?_, ?_⟩
  · intro debug action inner r b hd
    cases hf : inner false with
    | ok d =>
        simp [dispatch, hf] at hd
        constructor
        · intro hb
          rw [hb] at hd
          simp at hd
        · rintro ⟨e, he, _⟩
          exact absurd he (by simp)
    | error e =>
        by_cases hc : isConnectionOrTransportError e = true
        · cases ht : inner true with
          | ok d =>
              simp [dispatch, hf, hc, ht] at hd
              exact ⟨fun _ => ⟨e, rfl, hc⟩, fun _ => hd.2⟩
          | error e2 =>
              simp [dispatch, hf, hc, ht] at hd
        · simp [dispatch, hf, hc] at hd
  · intro debug m
    rfl
  · intro debug inner m r b hf hd
    cases ht : inner true with
    | ok d =>
        simp [dispatch, hf, isConnectionOrTransportError, ht] at hd
        exact hd.2
    | error e2 =>
        simp [dispatch, hf, isConnectionOrTransportError, ht] at hd

/-- Witness for C1 (amended) at concrete cycles: the fallback iff at
the malformed-query cycle, and the 404 translation at a missing
document. -/
theorem C1_fallback_condition_witness :
    (true = true ↔ ∃ e, innerRequestError false = .error e ∧
        isConnectionOrTransportError e = true) ∧
    dispatch false "retrieve" (fun _ => retrieve_inner (.error (.notFoundError "no doc"))) =
      .ok (.dict [("detail", .str "Not found"),
        ("filter_status", .str FILTER_STATUS_MESSAGE_OK)], false) ∧
    true = true :=
  ⟨C1_fallback_condition.1 false "list" innerRequestError
      (.dict [("count", .str "0"), ("results", .items []),
        ("filter_status", .str FILTER_STATUS_MESSAGE_FAILED)]) true rfl,
   C1_fallback_condition.2.1 false "no doc",
   C1_fallback_condition.2.2 false innerRequestError "SearchParseException bad query"
     (.dict [("count", .str "0"), ("results", .items []),
       ("filter_status", .str FILTER_STATUS_MESSAGE_FAILED)]) true rfl rfl⟩

/-- Claim C4 counterexample: a list response served by the database
fallback with a non-dictionary payload (unpaginated DRF list) carries
no `filter_status` marker, because the marker is attached only under
the `isinstance(r.data, dict)` guard on line 161. -/
theorem C4_counterexample :
    dispatch false "list" innerNonDictFallback = .ok (.other ["doc1", "doc2"], true) ∧
    (RData.other ["doc1", "doc2"]).hasKey "filter_status" = false :=
  ⟨rfl, rfl⟩

/-- Claim C4 (amended): every list and retrieve response whose payload
is a dictionary carries `filter_status`, equal to Ok when no
search-backend failure occurred and Failed when fallback was triggered;
and a fallback response is built entirely from the database-backed
second run of the cycle.  Non-dictionary payloads carry no marker. -/
theorem C4_filter_status_marker :
    (∀ debug action inner r b, (action = "list" ∨ action = "retrieve") →
      dispatch debug action inner = .ok (r, b) → r.isDict = true →
      r.lookup "filter_status" =
        some (.str (if b then FILTER_STATUS_MESSAGE_FAILED else FILTER_STATUS_MESSAGE_OK))) ∧
    (∀ debug action inner r, dispatch debug action inner = .ok (r, true) →
      ∃ e d, inner false = .error e ∧ isConnectionOrTransportError e = true ∧
        inner true = .ok d ∧ r = fallback_response debug action e d) := by
  constructor
  · intro debug action inner r b ha hd hr
    cases hf : inner false with
    | ok d =>
        simp [dispatch, hf] at hd
        obtain ⟨hd1, hd2⟩ := hd
        subst hd1
        subst hd2
        have hdict : d.isDict = true := by
          rw [← isDict_addFilterStatus action false d]
          exact hr
        unfold addFilterStatus
        rw [if_pos ⟨hdict, ha⟩]
        simp [RData.lookup_set_self d _ _ hdict]
    | error e =>
        by_cases hc : isConnectionOrTransportError e = true
        · cases ht : inner true with
          | ok d =>
              simp [dispatch, hf, hc, ht] at hd
              obtain ⟨hd1, hd2⟩ := hd
              subst hd1
              subst hd2
              have hd0 : d.isDict = true := by
                rw [isDict_fallback_response] at hr
                exact hr
              have hdict : (if debug = true ∧ d.isDict = true
                  then d.set "filter_fail_cause" (.str (strOfExc e)) else d).isDict = true := by
                split
                · rw [RData.isDict_set]
                  exact hd0
                · exact hd0
              unfold fallback_response addFilterStatus
              rw [if_pos ⟨hdict, ha⟩]
              simp [RData.lookup_set_self _ _ _ hdict]
          | error e2 =>
              simp [dispatch, hf, hc, ht] at hd
        · simp [dispatch, hf, hc] at hd
  · intro debug action inner r hd
    cases hf : inner false with
    | ok d =>
        simp [dispatch, hf] at hd
    | error e =>
        by_cases hc : isConnectionOrTransportError e = true
        · cases ht : inner true with
          | ok d =>
              simp [dispatch, hf, hc, ht] at hd
              exact ⟨e, d, rfl, hc, rfl, hd.symm⟩
          | error e2 =>
              simp [dispatch, hf, hc, ht] at hd
        · simp [dispatch, hf, hc] at hd

/-- Witness for C4 (amended) at a dictionary-payload fallback run: the
marker reads Failed, and the response is the fallback-built one. -/
theorem C4_filter_status_marker_witness :
    (RData.dict [("count", .str "2"), ("results", .items ["a", "b"]),
        ("filter_status", .str FILTER_STATUS_MESSAGE_FAILED)]).lookup "filter_status" =
      some (.str (if true then FILTER_STATUS_MESSAGE_FAILED else FILTER_STATUS_MESSAGE_OK)) ∧
    (∃ e d, innerDictFallback false = .error e ∧ isConnectionOrTransportError e = true ∧
      innerDictFallback true = .ok d ∧
      RData.dict [("count", .str "2"), ("results", .items ["a", "b"]),
          ("filter_status", .str FILTER_STATUS_MESSAGE_FAILED)] =
        fallback_response false "list" e d) :=
  ⟨C4_filter_status_marker.1 false "list" innerDictFallback
      (.dict [("count", .str "2"), ("results", .items ["a", "b"]),
        ("filter_status", .str FILTER_STATUS_MESSAGE_FAILED)]) true (Or.inl rfl) rfl rfl,
   C4_filter_status_marker.2 false "list" innerDictFallback
      (.dict [("count", .str "2"), ("results", .items ["a", "b"]),
        ("filter_status", .str FILTER_STATUS_MESSAGE_FAILED)]) rfl⟩

/-- Claim C5 counterexample: with debug mode enabled, a fallback
response with a non-dictionary payload carries no `filter_fail_cause`
(the attachment on line 156 is guarded by `isinstance(r.data, dict)`),
so the cause does not appear whenever debug is enabled. -/
theorem C5_counterexample :
    dispatch true "list" innerNonDictFallback = .ok (.other ["doc1", "doc2"], true) ∧
    (RData.other ["doc1", "doc2"]).hasKey "filter_fail_cause" = false :=
  ⟨rfl, rfl⟩

/-- Claim C5 (amended): when a search-backend failure triggers fallback
and the fallback payload is a dictionary (not already carrying the
key), `filter_fail_cause` appears in the response exactly when debug
mode is enabled; and with debug disabled the dispatch outcome is
independent of the raised failure, so no backend-internal message can
be exposed (two-run noninterference over the failure cause). -/
theorem C5_fail_cause_debug_only :
    (∀ debug action inner e d r b,
      inner false = .error e → inner true = .ok d →
      dispatch debug action inner = .ok (r, b) →
      d.isDict = true → d.hasKey "filter_fail_cause" = false →
      r.hasKey "filter_fail_cause" = debug) ∧
    (∀ action (f g : Bool → Except PyExc RData) e1 e2,
      f false = .error e1 → g false = .error e2 →
      isConnectionOrTransportError e1 = true → isConnectionOrTransportError e2 = true →
      f true = g true →
      dispatch false action f = dispatch false action g) := by
  constructor
  · intro debug action inner e d r b hf ht hd hdict hnk
    by_cases hc : isConnectionOrTransportError e = true
    · simp [dispatch, hf, hc, ht] at hd
      obtain ⟨hd1, hd2⟩ := hd
      subst hd1
      rw [fallback_response, hasKey_addFilterStatus_ne _ _ _ _ (by decide)]
      cases debug with
      | true =>
          rw [if_pos ⟨rfl, hdict⟩]
          exact RData.hasKey_set_self d _ _ hdict
      | false =>
          rw [if_neg (by simp)]
          exact hnk
    · simp [dispatch, hf, hc] at hd
  · intro action f g e1 e2 hf hg hc1 hc2 hfg
    unfold dispatch
    rw [hf, hg, hfg]
    cases hgt : g true with
    | ok d => simp [hc1, hc2, fallback_response]
    | error e => simp [hc1, hc2]

/-- Witness for C5 (amended) at a dictionary-payload fallback run with
debug enabled: the cause key is present. -/
theorem C5_fail_cause_debug_only_witness :
    (RData.dict [("count", .str "2"), ("results", .items ["a", "b"]),
        ("filter_fail_cause", .str "connection refused"),
        ("filter_status", .str FILTER_STATUS_MESSAGE_FAILED)]).hasKey "filter_fail_cause"
      = true :=
  C5_fail_cause_debug_only.1 true "list" innerDictFallback
    (.connectionError "connection refused")
    (.dict [("count", .str "2"), ("results", .items ["a", "b"])])
    (.dict [("count", .str "2"), ("results", .items ["a", "b"]),
      ("filter_fail_cause", .str "connection refused"),
      ("filter_status", .str FILTER_STATUS_MESSAGE_FAILED)])
    true rfl rfl rfl rfl rfl

/- ===== nested_update lemmas ===== -/

/-- PyVal dict assignment makes the key present with the written value. -/
theorem pyGet_pySet_self (d : List (String × PyVal)) (k : String) (v : PyVal) :
    pyGet (pySet d k v) k = some v := by
  induction d with
  | nil => simp [pySet, pyGet]
  | cons hd tl ih =>
      obtain ⟨k0, v0⟩ := hd
      by_cases h : k0 = k <;> simp [pySet, pyGet, h, ih]

/-- PyVal dict assignment leaves every other key unchanged. -/
theorem pyGet_pySet_ne (d : List (String × PyVal)) (k k2 : String) (v : PyVal)
    (h : k2 ≠ k) : pyGet (pySet d k v) k2 = pyGet d k2 := by
  induction d with
  | nil => simp [pySet, pyGet, Ne.symm h]
  | cons hd tl ih =>
      obtain ⟨k0, v0⟩ := hd
      by_cases h0 : k0 = k
      · subst h0
        simp [pySet, pyGet, Ne.symm h]
      · simp [pySet, pyGet, h0, ih]

/-- A successful loop iteration on a dict target returns a dict and
leaves every key other than the processed one unchanged. -/
theorem nu_step_untouched (dl : List (String × PyVal)) (k k2 : String) (v : PyVal)
    (d2 : PyVal) (h : nu_step (.vmap dl) k v = .ok d2) (hne : k2 ≠ k) :
    ∃ dl2, d2 = .vmap dl2 ∧ pyGet dl2 k2 = pyGet dl k2 := by
  cases v with
  | vmap m =>
      cases hm : nu_list ((pyGet dl k).getD (.vmap [])) m with
      | ok r =>
          simp [nu_step, hm] at h
          exact ⟨pySet dl k r, h.symm, pyGet_pySet_ne dl k k2 r hne⟩
      | error e =>
          simp [nu_step, hm] at h
  | vlist l =>
      cases hg : pyGet dl k with
      | none =>
          simp [nu_step, hg] at h
          exact ⟨pySet dl k (.vlist l), h.symm, pyGet_pySet_ne dl k k2 _ hne⟩
      | some w =>
          cases w with
          | vlist dk =>
              simp [nu_step, hg] at h
              exact ⟨pySet dl k (.vlist (dk ++ l)), h.symm, pyGet_pySet_ne dl k k2 _ hne⟩
          | vmap m2 => simp [nu_step, hg] at h
          | vint n => simp [nu_step, hg] at h
  | vint n =>
      simp [nu_step] at h
      exact ⟨pySet dl k (.vint n), h.symm, pyGet_pySet_ne dl k k2 _ hne⟩

/-- A successful run of the update loop leaves every key that does not
occur in the update dict unchanged. -/
theorem nu_list_untouched (u : List (String × PyVal)) (dl : List (String × PyVal))
    (k : String) (h : k ∉ u.map Prod.fst) (rm : List (String × PyVal))
    (hr : nu_list (.vmap dl) u = .ok (.vmap rm)) : pyGet rm k = pyGet dl k := by
  induction u generalizing dl with
  | nil =>
      simp [nu_list] at hr
      rw [hr]
  | cons hd rest ih =>
      obtain ⟨k0, v⟩ := hd
      simp at h
      cases hs : nu_step (.vmap dl) k0 v with
      | ok d2 =>
          obtain ⟨dl2, hdl2, hget⟩ := nu_step_untouched dl k0 k v d2 hs h.1
          subst hdl2
          simp [nu_list, hs] at hr
          have h2 : k ∉ List.map Prod.fst rest := by
            simp
            exact h.2
          rw [ih dl2 h2 hr, hget]
      | error e =>
          simp [nu_list, hs] at hr

/-- Claim C9: `nested_update` merges per key by the value's type: the
loop threads the (mutated) target through one step per update entry; a
mapping value is merged recursively into the target's value for that
key (an empty dict standing in when the key is absent); a non-mapping
iterable value extends the target's existing sequence at that key, or
is assigned when the key is absent (`KeyError` caught); any other value
overwrites the entry; the returned value is the updated target itself,
with keys outside the update dict untouched. -/
theorem C9_nested_update_merge :
    (∀ d : List (String × PyVal), nested_update d [] = .ok (.vmap d)) ∧
    (∀ (d : List (String × PyVal)) k v rest d2, nu_step (.vmap d) k v = .ok d2 →
      nested_update d ((k, v) :: rest) = nu_list d2 rest) ∧
    (∀ (d : List (String × PyVal)) k n,
      nested_update d [(k, .vint n)] = .ok (.vmap (pySet d k (.vint n)))) ∧
    (∀ (d : List (String × PyVal)) k l dl, pyGet d k = some (.vlist dl) →
      nested_update d [(k, .vlist l)] = .ok (.vmap (pySet d k (.vlist (dl ++ l))))) ∧
    (∀ (d : List (String × PyVal)) k l, pyGet d k = none →
      nested_update d [(k, .vlist l)] = .ok (.vmap (pySet d k (.vlist l)))) ∧
    (∀ (d : List (String × PyVal)) k m dm r, pyGet d k = some (.vmap dm) →
      nested_update dm m = .ok r →
      nested_update d [(k, .vmap m)] = .ok (.vmap (pySet d k r))) ∧
    (∀ (d : List (String × PyVal)) k m r, pyGet d k = none →
      nested_update ([] : List (String × PyVal)) m = .ok r →
      nested_update d [(k, .vmap m)] = .ok (.vmap (pySet d k r))) ∧
    (∀ (d u rm : List (String × PyVal)) k, k ∉ u.map Prod.fst →
      nested_update d u = .ok (.vmap rm) → pyGet rm k = pyGet d k) := by
  refine ⟨?_, ?_, ?_, ?_, ?_, ?_, ?_, ?_⟩
  · intro d
    rfl
  · intro d k v rest d2 hs
    simp [nested_update, nu_list, hs]
  · intro d k n
    simp [nested_update, nu_list, nu_step]
  · intro d k l dl h
    simp [nested_update, nu_list, nu_step, h]
  · intro d k l h
    simp [nested_update, nu_list, nu_step, h]
  · intro d k m dm r h h2
    simp only [nested_update] at h2
    simp [nested_update, nu_list, nu_step, h, h2]
  · intro d k m r h h2
    simp only [nested_update] at h2
    simp [nested_update, nu_list, nu_step, h, h2]
  · intro d u rm k h hr
    exact nu_list_untouched u d k h rm hr

/-- Witness for C9 on concrete dicts: extending an existing list,
assigning a fresh list, recursively merging a nested dict, overwriting
an atom, and leaving an unrelated key untouched. -/
theorem C9_nested_update_merge_witness :
    nested_update [("a", .vlist [.vint 1])] [("a", .vlist [.vint 2])] =
      .ok (.vmap (pySet [("a", .vlist [.vint 1])] "a" (.vlist ([.vint 1] ++ [.vint 2])))) ∧
    nested_update [] [("b", .vlist [.vint 3])] =
      .ok (.vmap (pySet [] "b" (.vlist [.vint 3]))) ∧
    nested_update [("c", .vmap [("x", .vint 1)]), ("keep", .vint 9)]
        [("c", .vmap [("x", .vint 2)])] =
      .ok (.vmap (pySet [("c", .vmap [("x", .vint 1)]), ("keep", .vint 9)] "c"
        (.vmap (pySet [("x", .vint 1)] "x" (.vint 2))))) ∧
    pyGet [("c", .vmap [("x", .vint 2)]), ("keep", .vint 9)] "keep" =
      pyGet [("c", .vmap [("x", .vint 1)]), ("keep", .vint 9)] "keep" :=
  ⟨C9_nested_update_merge.2.2.2.1 [("a", .vlist [.vint 1])] "a" [.vint 2] [.vint 1] rfl,
   C9_nested_update_merge.2.2.2.2.1 [] "b" [.vint 3] rfl,
   C9_nested_update_merge.2.2.2.2.2.1 [("c", .vmap [("x", .vint 1)]), ("keep", .vint 9)]
     "c" [("x", .vint 2)] [("x", .vint 1)] (.vmap (pySet [("x", .vint 1)] "x" (.vint 2))) rfl
     (C9_nested_update_merge.2.2.1 [("x", .vint 1)] "x" 2),
   C9_nested_update_merge.2.2.2.2.2.2.2
     [("c", .vmap [("x", .vint 1)]), ("keep", .vint 9)]
     [("c", .vmap [("x", .vint 2)])]
     [("c", .vmap [("x", .vint 2)]), ("keep", .vint 9)] "keep" (by simp)
     (C9_nested_update_merge.2.2.2.2.2.1 [("c", .vmap [("x", .vint 1)]), ("keep", .vint 9)]
       "c" [("x", .vint 2)] [("x", .vint 1)] (.vmap (pySet [("x", .vint 1)] "x" (.vint 2))) rfl
       (C9_nested_update_merge.2.2.1 [("x", .vint 1)] "x" 2))⟩
